import Mathlib

/-
Verification of the ratify trust-material and cache layer against its
natural-language specification.

Sources embedded:
  * internal/cache/api.go                 — cache error values
  * internal/cache/ristretto (Cache[T])   — NewCache / Get / Set over a
    ristretto backing store
  * internal/keyprovider/azurekeyvault    — certificate parsing and the
    key-vault provider; its implementation file is absent from the source
    snapshot (only its tests are present), so those operations are
    modelled from the spec, with error-message text pinned by the tests.

Machine integers (Go time.Duration, int64 costs) are modelled as Int.
The third-party ristretto store is modelled at the level of the contract
the repository relies on after cache.Wait(): a keyed store with per-entry
cost and expiry and an abstract admission decision; SetWithTTL reports
true exactly when the entry is in the store afterwards.
-/

namespace Ratify

/-- Errors of internal/cache/api.go: ErrNotFound, ErrInvalidTTL,
ErrAddFailed, ErrInvalidMaxSize, plus an error bubbled up from the
ristretto backing store (NewCache returns that error unchanged). -/
inductive CacheErr where
  | notFound
  | invalidTTL
  | addFailed
  | invalidMaxSize
  | backend (msg : String)
deriving DecidableEq, Repr

/-- One entry of the modelled ristretto store: key, value, the admission
cost it was stored with, and its expiry time (none = no expiry, the
ristretto meaning of TTL 0). -/
structure Entry (T : Type) where
  key : String
  value : T
  cost : Int
  expiry : Option Int
deriving DecidableEq, Repr

/-- Model of the third-party ristretto store after Wait(): an association
list of entries plus an abstract admission policy deciding whether a set
is admitted (ristretto may reject admission; callers observe only the
Boolean result). -/
structure Ristretto (T : Type) where
  accept : String → T → Bool
  entries : List (Entry T)

/-- An entry is alive at time `now` when it has no expiry or its expiry
lies strictly in the future. -/
def entryAlive (expiry : Option Int) (now : Int) : Bool :=
  match expiry with
  | none => true
  | some t => decide (now < t)

/-- ristretto Get: first entry for the key, provided it is alive. -/
def Ristretto.lookup {T : Type} (r : Ristretto T) (key : String) (now : Int) : Option T :=
  match r.entries.find? (fun e => e.key == key) with
  | some e => if entryAlive e.expiry now then some e.value else none
  | none => none

/-- ristretto SetWithTTL: a negative TTL stores nothing and reports
false; otherwise, when the admission policy accepts, the entry replaces
any previous entry for the key (TTL 0 meaning no expiry) and true is
reported; a rejected set leaves the store unchanged and reports false. -/
def Ristretto.setWithTTL {T : Type} (r : Ristretto T) (key : String) (value : T)
    (cost : Int) (ttl : Int) (now : Int) : Ristretto T × Bool :=
  if ttl < 0 then (r, false)
  else if r.accept key value then
    ({ r with entries :=
        ⟨key, value, cost, if ttl = 0 then none else some (now + ttl)⟩ ::
          r.entries.filter (fun e => e.key != key) }, true)
  else (r, false)

/-- Total admission cost currently held by the store. -/
def Ristretto.costSum {T : Type} (r : Ristretto T) : Int :=
  (r.entries.map (fun e => e.cost)).sum

/-- Configuration passed to ristretto.NewCache. -/
structure RistrettoConfig where
  numCounters : Int
  maxCost : Int
  bufferItems : Int
deriving DecidableEq, Repr

/-- ristretto.NewCache: rejects a zero NumCounters, MaxCost or
BufferItems with its own error, otherwise yields an empty store. -/
def ristrettoNew {T : Type} (accept : String → T → Bool) (cfg : RistrettoConfig) :
    Except String (Ristretto T) :=
  if cfg.numCounters = 0 then .error "NumCounters can not be zero"
  else if cfg.maxCost = 0 then .error "MaxCost can not be zero"
  else if cfg.bufferItems = 0 then .error "BufferItems can not be zero"
  else .ok { accept := accept, entries := [] }

/-- const defaultMaxSize = 100000000. -/
def defaultMaxSize : Int := 100000000

/-- const defaultCountNum = 100000. -/
def defaultCountNum : Int := 100000

/-- Cache[T] of the ristretto backend: the backing store and the
configured default TTL. -/
structure Cache (T : Type) where
  store : Ristretto T
  ttl : Int

/-- NewCache: a negative TTL is rejected with ErrInvalidTTL; otherwise a
ristretto store is built with NumCounters = defaultCountNum, MaxCost =
defaultMaxSize and BufferItems = 64, a ristretto construction error is
returned as-is, and on success the cache holds the store and the TTL.
The admission policy is a model parameter standing for ristretto's
internal admission behaviour. -/
def NewCache {T : Type} (accept : String → T → Bool) (ttl : Int) :
    Except CacheErr (Cache T) :=
  if ttl < 0 then .error CacheErr.invalidTTL
  else
    match ristrettoNew accept
        { numCounters := defaultCountNum, maxCost := defaultMaxSize, bufferItems := 64 } with
    | .error e => .error (CacheErr.backend e)
    | .ok st => .ok { store := st, ttl := ttl }

/-- Cache.Get: found entries are returned with a nil error; otherwise the
zero value of T together with ErrNotFound. -/
def Cache.get {T : Type} [Inhabited T] (c : Cache T) (key : String) (now : Int) :
    T × Option CacheErr :=
  match c.store.lookup key now with
  | some v => (v, none)
  | none => (default, some CacheErr.notFound)

/-- Cache.Set: a TTL ≤ 0 is replaced by the cache's configured TTL; the
entry is stored through SetWithTTL with cost 1 followed by Wait() (the
model is synchronous, so Wait is the identity); a nil error is returned
exactly when the store reported the set as saved, ErrAddFailed
otherwise. -/
def Cache.set {T : Type} (c : Cache T) (key : String) (value : T) (ttl : Int) (now : Int) :
    Cache T × Option CacheErr :=
  match c.store.setWithTTL key value 1 (if ttl ≤ 0 then c.ttl else ttl) now with
  | (st, true) => ({ c with store := st }, none)
  | (st, false) => ({ c with store := st }, some CacheErr.addFailed)

/-- Every entry for `key` in the store is absent or dead at `now`. -/
def Ristretto.staleFor {T : Type} (r : Ristretto T) (key : String) (now : Int) : Bool :=
  r.entries.all (fun e => e.key != key || !entryAlive e.expiry now)

/-- CertificateSpec of the azurekeyvault key provider: a secret name and
an optional version (empty string meaning latest). -/
structure CertificateSpec where
  name : String
  version : String
deriving DecidableEq, Repr

/-- An x509 certificate, abstract: only its identity matters here; the
byte-level certificate structure is a black box in the spec. -/
structure Cert where
  der : List Nat
deriving DecidableEq, Repr

/-- One PEM block as yielded by pem.Decode: a type line and a decoded
body. Raw input that is not PEM yields no blocks. -/
structure PemBlock where
  type : String
  bytes : List Nat
deriving DecidableEq, Repr

/-- PEMContentType = "application/x-pem-file". -/
def PEMContentType : String := "application/x-pem-file"

/-- PKCS12ContentType = "application/x-pkcs12". -/
def PKCS12ContentType : String := "application/x-pkcs12"

/-- The PEM-path parse error message, pinned by
TestExtractCertificateFromResponse_ErrorMessages. -/
def pemParseErrorMsg (spec : CertificateSpec) : String :=
  "failed to parse PEM certificate chain from secret \"" ++ spec.name ++
    "\" of version \"" ++ spec.version ++ "\""

/-- The PKCS#12-path parse error message, pinned by
TestExtractCertificateFromResponse_ErrorMessages. -/
def pkcs12ParseErrorMsg (spec : CertificateSpec) : String :=
  "failed to parse PKCS#12 certificate chain from secret \"" ++ spec.name ++
    "\" of version \"" ++ spec.version ++ "\""

/-- The empty-chain error message of extractCertificateFromResponse,
pinned by TestExtractCertificateFromResponse_ErrorMessages. -/
def noChainErrorMsg (spec : CertificateSpec) : String :=
  "no certificate chain found in secret with name: \"" ++ spec.name ++
    "\" of version \"" ++ spec.version ++ "\""

/-- The unexpected-content-type error message of
extractCertificateFromResponse, pinned by
TestExtractCertificateFromResponse_ErrorMessages. -/
def unexpectedContentTypeMsg (ct : String) (spec : CertificateSpec) : String :=
  "unexpected content type \"" ++ ct ++ "\" for secret \"" ++ spec.name ++
    "\", expected \"" ++ PKCS12ContentType ++ "\" or \"" ++ PEMContentType ++ "\""

/-- Modelled from the spec: azurekeyvault parseCertificateInPem (its
implementation file is absent from the source snapshot; only its tests
are). Blocks are consumed in order, exactly blocks of type CERTIFICATE
are parsed as certificates, a CERTIFICATE block whose body fails to
parse aborts the whole parse with an error, and every other block type
is silently skipped. The Go stdlib pem.Decode loop is represented by
the list of blocks it yields, and x509.ParseCertificate by the
parameter `x509Parse`. -/
def parseCertificateInPem (x509Parse : List Nat → Option Cert)
    (blocks : List PemBlock) (spec : CertificateSpec) : Except String (List Cert) :=
  match blocks with
  | [] => .ok []
  | b :: rest =>
    if b.type = "CERTIFICATE" then
      match x509Parse b.bytes with
      | none => .error (pemParseErrorMsg spec)
      | some c =>
        match parseCertificateInPem x509Parse rest spec with
        | .error e => .error e
        | .ok cs => .ok (c :: cs)
    else parseCertificateInPem x509Parse rest spec

/-- Modelled from the spec: azurekeyvault parseCertificateInPKCS12 (its
implementation file is absent from the source snapshot). The input is a
nil-able base64 string: a nil or blank input (modelled as the empty
string) is a fatal error, the base64 decode and the PKCS#12 structural
parse are each fatal on failure, and no partial result accompanies an
error. base64 decoding and the PKCS#12 bundle parse are the parameters
`b64Decode` and `pkcs12Parse`. -/
def parseCertificateInPKCS12 (b64Decode : String → Option (List Nat))
    (pkcs12Parse : List Nat → Option (List Cert))
    (value : Option String) (spec : CertificateSpec) : Except String (List Cert) :=
  match value with
  | none => .error (pkcs12ParseErrorMsg spec)
  | some s =>
    if s = "" then .error (pkcs12ParseErrorMsg spec)
    else
      match b64Decode s with
      | none => .error (pkcs12ParseErrorMsg spec)
      | some bytes =>
        match pkcs12Parse bytes with
        | none => .error (pkcs12ParseErrorMsg spec)
        | some certs => .ok certs

/-- The external decoding collaborators of the trust material provider:
PEM block decoding, x509 certificate parsing, base64 decoding and
PKCS#12 bundle parsing, all black boxes to the spec. -/
structure ExternalParsers where
  pemDecode : String → List PemBlock
  x509Parse : List Nat → Option Cert
  b64Decode : String → Option (List Nat)
  pkcs12Parse : List Nat → Option (List Cert)

/-- A secret-store fetch response: a value and a content type. -/
structure GetSecretResponse where
  value : String
  contentType : String
deriving DecidableEq, Repr

/-- Modelled from the spec: azurekeyvault extractCertificateFromResponse
(its implementation file is absent from the source snapshot). Dispatch
on the response content type: PKCS#12 delegates to the PKCS#12 parser;
PEM delegates to the PEM parser and then rejects an empty chain with the
no-certificate-chain-found error; any other content type is rejected
with an error naming the content type, the secret and both accepted
content types (message text pinned by the tests). -/
def extractCertificateFromResponse (ep : ExternalParsers)
    (resp : GetSecretResponse) (spec : CertificateSpec) : Except String (List Cert) :=
  if resp.contentType = PKCS12ContentType then
    parseCertificateInPKCS12 ep.b64Decode ep.pkcs12Parse (some resp.value) spec
  else if resp.contentType = PEMContentType then
    match parseCertificateInPem ep.x509Parse (ep.pemDecode resp.value) spec with
    | .error e => .error e
    | .ok [] => .error (noChainErrorMsg spec)
    | .ok certs => .ok certs
  else
    .error (unexpectedContentTypeMsg resp.contentType spec)

/-- The azurekeyvault Provider: its configured certificate specs and the
certificates cached at initialization. -/
structure Provider where
  certSpecs : List CertificateSpec
  cachedCerts : List Cert
deriving DecidableEq, Repr

/-- Modelled from the spec: Provider.GetCertificates (its implementation
file is absent from the source snapshot). An empty (or nil) cached set
fails fast with the no-cached-certificates error; otherwise exactly the
cached certificates are returned. -/
def Provider.GetCertificates (p : Provider) : Except String (List Cert) :=
  if p.cachedCerts.isEmpty then .error "no cached certificates available"
  else .ok p.cachedCerts

/-- `sub` occurs as a contiguous substring of `hay`. -/
def containsSub (hay sub : String) : Prop :=
  ∃ p q, hay = p ++ (sub ++ q)

/-- A concrete admission policy that accepts every set, used to evaluate
the cache model at concrete inputs. -/
def acceptAll : String → Nat → Bool := fun _ _ => true

/-- A concrete empty cache over Nat with default TTL 5. -/
def witnessCache : Cache Nat :=
  { store := { accept := acceptAll, entries := [] }, ttl := 5 }

/-- A concrete cache holding a single entry for key "k" that expires at
time 5. -/
def staleCache : Cache Nat :=
  { store := { accept := acceptAll, entries := [⟨"k", 7, 1, some 5⟩] }, ttl := 5 }

/-- A concrete certificate parse accepting exactly the body [1]. -/
def toyX509Parse : List Nat → Option Cert :=
  fun b => if b = [1] then some ⟨[1]⟩ else none

/-- Concrete external parsers used to evaluate the modelled certificate
extraction at concrete inputs: "pem" decodes to one private-key block,
"b64" decodes to the byte [2], and the PKCS#12 parse accepts exactly the
bytes [9]. -/
def toyParsers : ExternalParsers :=
  { pemDecode := fun s => if s = "pem" then [⟨"PRIVATE KEY", [3]⟩] else []
    x509Parse := toyX509Parse
    b64Decode := fun s => if s = "b64" then some [2] else none
    pkcs12Parse := fun b => if b = [9] then some [⟨[9]⟩] else none }

theorem setWithTTL_saved_lookup {T : Type} (r : Ristretto T) (key : String) (v : T)
    (cost ttl now : Int) (st : Ristretto T)
    (h : r.setWithTTL key v cost ttl now = (st, true)) :
    st.lookup key now = some v := by
  unfold Ristretto.setWithTTL at h
  by_cases h1 : ttl < 0
  · simp [h1] at h
  · rw [if_neg h1] at h
    by_cases h2 : r.accept key v = true
    · rw [if_pos h2] at h
      have hst := congrArg Prod.fst h
      simp only at hst
      rw [← hst]
      unfold Ristretto.lookup
      simp only [List.find?_cons]
      have hbeq : (key == key) = true := by simp
      simp only [hbeq]
      by_cases h3 : ttl = 0
      · simp [entryAlive, h3]
      · have h4 : now < now + ttl := by omega
        simp [entryAlive, h3, h4]
    · rw [if_neg h2] at h
      simp at h

theorem set_store_characterization {T : Type} (c : Cache T) (key : String) (v : T)
    (ttl now : Int) :
    (c.set key v ttl now).1.store =
      (c.store.setWithTTL key v 1 (if ttl ≤ 0 then c.ttl else ttl) now).1 := by
  unfold Cache.set
  rcases hE : c.store.setWithTTL key v 1 (if ttl ≤ 0 then c.ttl else ttl) now with ⟨st, b⟩
  cases b <;> rfl

theorem lookup_eq_none_of_staleFor {T : Type} (r : Ristretto T) (key : String) (now : Int)
    (h : r.staleFor key now = true) : r.lookup key now = none := by
  unfold Ristretto.lookup
  rcases hf : r.entries.find? (fun e => e.key == key) with - | e
  · rw [hf]
  · rw [hf]
    have hmem : e ∈ r.entries := List.mem_of_find?_eq_some hf
    have hkey := List.find?_some hf
    simp only [beq_iff_eq] at hkey
    have hall := List.all_eq_true.mp h e hmem
    simp only [Bool.or_eq_true, bne_iff_ne, Bool.not_eq_true'] at hall
    rcases hall with hne | hdead
    · exact absurd hkey hne
    · simp [hdead]

theorem sum_costs_eq_length {T : Type} (l : List (Entry T))
    (h : ∀ e ∈ l, e.cost = 1) :
    (l.map (fun e => e.cost)).sum = (l.length : Int) := by
  induction l with
  | nil => simp
  | cons a t ih =>
    have ha : a.cost = 1 := h a (List.mem_cons_self a t)
    have ht : ∀ e ∈ t, e.cost = 1 := fun e he => h e (List.mem_cons_of_mem a he)
    simp [ha, ih ht]
    omega

theorem setWithTTL_cost_preserved {T : Type} (r : Ristretto T) (key : String) (v : T)
    (ttl now : Int) (h : ∀ e ∈ r.entries, e.cost = 1) :
    ∀ e ∈ (r.setWithTTL key v 1 ttl now).1.entries, e.cost = 1 := by
  unfold Ristretto.setWithTTL
  by_cases h1 : ttl < 0
  · rw [if_pos h1]
    exact h
  · rw [if_neg h1]
    by_cases h2 : r.accept key v = true
    · rw [if_pos h2]
      intro e he
      simp only [List.mem_cons] at he
      rcases he with rfl | he
      · rfl
      · exact h e (List.mem_of_mem_filter he)
    · rw [if_neg h2]
      exact h

/-- C6: for every key, value and ttl ≤ 0 passed to the ristretto-backed
Cache.Set, the cache's configured default TTL is substituted for the
supplied ttl, and whenever Set returns success (nil error), an
immediately following Get with the same key returns the stored value. -/
theorem cacheSet_defaultTTL_get_spec {T : Type} [Inhabited T]
    (c : Cache T) (key : String) (v : T) (ttl now : Int) :
    (ttl ≤ 0 → c.set key v ttl now = c.set key v c.ttl now)
    ∧ ((c.set key v ttl now).2 = none →
        (c.set key v ttl now).1.get key now = (v, none)) := by
  constructor
  · intro h
    unfold Cache.set
    rw [if_pos h, ite_self]
  · intro h
    unfold Cache.set at h ⊢
    rcases hE : c.store.setWithTTL key v 1 (if ttl ≤ 0 then c.ttl else ttl) now with ⟨st, b⟩
    rw [hE] at h
    cases b
    · exact Option.noConfusion h
    · have hl := setWithTTL_saved_lookup c.store key v 1
        (if ttl ≤ 0 then c.ttl else ttl) now st hE
      show ({ store := st, ttl := c.ttl } : Cache T).get key now = (v, none)
      unfold Cache.get
      rw [show ({ store := st, ttl := c.ttl } : Cache T).store.lookup key now = some v from hl]

/-- Witness for C6 at a concrete cache: Set with ttl −1 equals Set with
the default TTL, and the value is retrievable right after a successful
Set. -/
theorem cacheSet_defaultTTL_get_spec_witness :
    (witnessCache.set "k" 42 (-1) 0 = witnessCache.set "k" 42 witnessCache.ttl 0)
    ∧ ((witnessCache.set "k" 42 (-1) 0).1.get "k" 0 = (42, none)) :=
  ⟨(cacheSet_defaultTTL_get_spec witnessCache "k" 42 (-1) 0).1 (by decide),
   (cacheSet_defaultTTL_get_spec witnessCache "k" 42 (-1) 0).2 (by decide)⟩

/-- C7: NewCache rejects every strictly negative default TTL with
ErrInvalidTTL and returns no cache; for every default TTL ≥ 0 it does
not fail with ErrInvalidTTL (it succeeds, yielding the empty cache with
that TTL). -/
theorem newCache_invalidTTL_spec {T : Type} (accept : String → T → Bool) (ttl : Int) :
    (ttl < 0 → NewCache accept ttl = .error CacheErr.invalidTTL)
    ∧ (0 ≤ ttl → NewCache accept ttl =
        .ok { store := { accept := accept, entries := [] }, ttl := ttl }) := by
  constructor
  · intro h
    unfold NewCache
    rw [if_pos h]
  · intro h
    unfold NewCache
    rw [if_neg (by omega : ¬ ttl < 0)]
    unfold ristrettoNew
    rw [if_neg (by decide : ¬ ((RistrettoConfig.mk defaultCountNum defaultMaxSize 64).numCounters = 0)),
      if_neg (by decide : ¬ ((RistrettoConfig.mk defaultCountNum defaultMaxSize 64).maxCost = 0)),
      if_neg (by decide : ¬ ((RistrettoConfig.mk defaultCountNum defaultMaxSize 64).bufferItems = 0))]

/-- Witness for C7: a negative TTL is rejected with InvalidTTL, TTL 7 is
accepted. -/
theorem newCache_invalidTTL_spec_witness :
    (NewCache acceptAll (-1) = .error CacheErr.invalidTTL)
    ∧ (NewCache acceptAll 7 =
        .ok { store := { accept := acceptAll, entries := [] }, ttl := 7 }) :=
  ⟨(newCache_invalidTTL_spec acceptAll (-1)).1 (by decide),
   (newCache_invalidTTL_spec acceptAll 7).2 (by decide)⟩

/-- C9: for every key absent from (or expired in) the ristretto-backed
cache, Get returns the zero value of T together with ErrNotFound; and
whenever Get returns an error at all, the accompanying value is the zero
value and the error is ErrNotFound — never a stale value alongside an
error. -/
theorem cacheGet_notFound_spec {T : Type} [Inhabited T]
    (c : Cache T) (key : String) (now : Int) :
    (c.store.staleFor key now = true →
      c.get key now = (default, some CacheErr.notFound))
    ∧ (∀ e, (c.get key now).2 = some e →
        (c.get key now).1 = default ∧ e = CacheErr.notFound) := by
  constructor
  · intro h
    unfold Cache.get
    rw [lookup_eq_none_of_staleFor c.store key now h]
  · intro e he
    unfold Cache.get at he ⊢
    rcases hl : c.store.lookup key now with - | v
    · rw [hl] at he
      exact ⟨rfl, (Option.some.inj he).symm⟩
    · rw [hl] at he
      exact Option.noConfusion he

/-- Witness for C9 at a cache whose only entry for "k" expired at time
5, read at time 10. -/
theorem cacheGet_notFound_spec_witness :
    (staleCache.get "k" 10 = (default, some CacheErr.notFound))
    ∧ ((staleCache.get "k" 10).1 = default ∧ CacheErr.notFound = CacheErr.notFound) :=
  ⟨(cacheGet_notFound_spec staleCache "k" 10).1 (by decide),
   (cacheGet_notFound_spec staleCache "k" 10).2 CacheErr.notFound (by decide)⟩

/-- C10: Cache.Set always stores with admission cost 1 regardless of the
value, so on every store reached by Set the total cost equals the number
of entries, and the MaxCost budget (defaultMaxSize) bounds the entry
count rather than memory consumption. -/
theorem cacheSet_unitCost_spec {T : Type} (c : Cache T) (key : String) (v : T)
    (ttl now : Int) (h : ∀ e ∈ c.store.entries, e.cost = 1) :
    (∀ e ∈ (c.set key v ttl now).1.store.entries, e.cost = 1)
    ∧ (c.set key v ttl now).1.store.costSum
        = ((c.set key v ttl now).1.store.entries.length : Int)
    ∧ ((c.set key v ttl now).1.store.costSum ≤ defaultMaxSize →
        ((c.set key v ttl now).1.store.entries.length : Int) ≤ defaultMaxSize) := by
  have hcost : ∀ e ∈ (c.set key v ttl now).1.store.entries, e.cost = 1 := by
    rw [set_store_characterization]
    exact setWithTTL_cost_preserved c.store key v _ now h
  have hsum : (c.set key v ttl now).1.store.costSum
      = ((c.set key v ttl now).1.store.entries.length : Int) :=
    sum_costs_eq_length _ hcost
  exact ⟨hcost, hsum, fun hb => by rw [← hsum]; exact hb⟩

/-- Witness for C10 at a concrete Set on the empty cache. -/
theorem cacheSet_unitCost_spec_witness :
    (∀ e ∈ (witnessCache.set "k" 3 2 0).1.store.entries, e.cost = 1)
    ∧ (witnessCache.set "k" 3 2 0).1.store.costSum
        = ((witnessCache.set "k" 3 2 0).1.store.entries.length : Int)
    ∧ ((witnessCache.set "k" 3 2 0).1.store.costSum ≤ defaultMaxSize →
        ((witnessCache.set "k" 3 2 0).1.store.entries.length : Int) ≤ defaultMaxSize) :=
  cacheSet_unitCost_spec witnessCache "k" 3 2 0 (by decide)

/-- NewCache never fails with ErrInvalidMaxSize: callers supply no
capacity bound at construction — the MaxCost handed to the backing store
is the fixed positive constant defaultMaxSize — and ErrInvalidMaxSize is
declared in the cache API but returned nowhere. -/
theorem newCache_never_invalidMaxSize {T : Type} (accept : String → T → Bool) (ttl : Int) :
    NewCache accept ttl ≠ .error CacheErr.invalidMaxSize := by
  unfold NewCache
  by_cases h : ttl < 0
  · rw [if_pos h]
    intro hc
    exact CacheErr.noConfusion (Except.error.inj hc)
  · rw [if_neg h]
    unfold ristrettoNew
    rw [if_neg (by decide : ¬ ((RistrettoConfig.mk defaultCountNum defaultMaxSize 64).numCounters = 0)),
      if_neg (by decide : ¬ ((RistrettoConfig.mk defaultCountNum defaultMaxSize 64).maxCost = 0)),
      if_neg (by decide : ¬ ((RistrettoConfig.mk defaultCountNum defaultMaxSize 64).bufferItems = 0))]
    intro hc
    exact Except.noConfusion hc

theorem parsePem_skips_nonCert (x509Parse : List Nat → Option Cert)
    (blocks : List PemBlock) (spec : CertificateSpec)
    (h : ∀ b ∈ blocks, b.type ≠ "CERTIFICATE") :
    parseCertificateInPem x509Parse blocks spec = .ok [] := by
  induction blocks with
  | nil => rfl
  | cons b rest ih =>
    rw [parseCertificateInPem]
    rw [if_neg (h b (List.mem_cons_self b rest))]
    exact ih (fun x hx => h x (List.mem_cons_of_mem b hx))

/-- C1: for every PEM block stream that is two valid CERTIFICATE blocks,
parseCertificateInPem yields exactly their two certificates in input
order and no error; when the second CERTIFICATE block's body fails to
parse, the whole parse aborts with an error and no certificates. -/
theorem parsePem_two_blocks_spec (x509Parse : List Nat → Option Cert)
    (b1 b2 : List Nat) (c1 c2 : Cert) (spec : CertificateSpec) :
    (x509Parse b1 = some c1 → x509Parse b2 = some c2 →
      parseCertificateInPem x509Parse [⟨"CERTIFICATE", b1⟩, ⟨"CERTIFICATE", b2⟩] spec
        = .ok [c1, c2])
    ∧ (x509Parse b1 = some c1 → x509Parse b2 = none →
      parseCertificateInPem x509Parse [⟨"CERTIFICATE", b1⟩, ⟨"CERTIFICATE", b2⟩] spec
        = .error (pemParseErrorMsg spec)) := by
  constructor
  · intro h1 h2
    simp [parseCertificateInPem, h1, h2]
  · intro h1 h2
    simp [parseCertificateInPem, h1, h2]

/-- Witness for C1 with the toy certificate parse: two valid blocks give
two certificates; a valid block followed by a corrupt one gives the
parse error. -/
theorem parsePem_two_blocks_spec_witness :
    (parseCertificateInPem toyX509Parse
        [⟨"CERTIFICATE", [1]⟩, ⟨"CERTIFICATE", [1]⟩] ⟨"test-cert", "v1"⟩
      = .ok [⟨[1]⟩, ⟨[1]⟩])
    ∧ (parseCertificateInPem toyX509Parse
        [⟨"CERTIFICATE", [1]⟩, ⟨"CERTIFICATE", [2]⟩] ⟨"test-cert", "v1"⟩
      = .error (pemParseErrorMsg ⟨"test-cert", "v1"⟩)) :=
  ⟨(parsePem_two_blocks_spec toyX509Parse [1] [1] ⟨[1]⟩ ⟨[1]⟩
      ⟨"test-cert", "v1"⟩).1 (by decide) (by decide),
   (parsePem_two_blocks_spec toyX509Parse [1] [2] ⟨[1]⟩ ⟨[1]⟩
      ⟨"test-cert", "v1"⟩).2 (by decide) (by decide)⟩

/-- C2: PEM input with no CERTIFICATE block parses to zero certificates
with no error, while extractCertificateFromResponse on that same input
with PEM content type fails with the no-certificate-chain-found error,
whose message contains the phrase and names the secret's name and
version. -/
theorem parsePem_noCert_extract_spec (ep : ExternalParsers) (v : String)
    (spec : CertificateSpec)
    (h : (ep.pemDecode v).all (fun b => b.type != "CERTIFICATE") = true) :
    parseCertificateInPem ep.x509Parse (ep.pemDecode v) spec = .ok []
    ∧ extractCertificateFromResponse ep ⟨v, PEMContentType⟩ spec
        = .error (noChainErrorMsg spec)
    ∧ containsSub (noChainErrorMsg spec) "no certificate chain found"
    ∧ containsSub (noChainErrorMsg spec) spec.name
    ∧ containsSub (noChainErrorMsg spec) spec.version := by
  have hne : ∀ b ∈ ep.pemDecode v, b.type ≠ "CERTIFICATE" := by
    intro b hb
    have := List.all_eq_true.mp h b hb
    simpa using this
  have h1 : parseCertificateInPem ep.x509Parse (ep.pemDecode v) spec = .ok [] :=
    parsePem_skips_nonCert ep.x509Parse (ep.pemDecode v) spec hne
  refine ⟨h1, ?_, ?_, ?_, ?_⟩
  · unfold extractCertificateFromResponse
    rw [if_neg (by decide : ¬ (PEMContentType = PKCS12ContentType)),
      if_pos (rfl : PEMContentType = PEMContentType), h1]
  · refine ⟨"", " in secret with name: \"" ++ (spec.name ++
      ("\" of version \"" ++ (spec.version ++ "\""))), ?_⟩
    unfold noChainErrorMsg
    rw [show ("no certificate chain found in secret with name: \"" : String)
        = "no certificate chain found" ++ " in secret with name: \"" from by decide,
      String.empty_append]
    simp only [String.append_assoc]
  · refine ⟨"no certificate chain found in secret with name: \"",
      "\" of version \"" ++ (spec.version ++ "\""), ?_⟩
    unfold noChainErrorMsg
    simp only [String.append_assoc]
  · refine ⟨"no certificate chain found in secret with name: \"" ++
      (spec.name ++ "\" of version \""), "\"", ?_⟩
    unfold noChainErrorMsg
    simp only [String.append_assoc]

/-- Witness for C2 on input decoding to a single private-key block. -/
theorem parsePem_noCert_extract_spec_witness :
    parseCertificateInPem toyParsers.x509Parse
        (toyParsers.pemDecode "pem") ⟨"test-cert", "v1"⟩ = .ok []
    ∧ extractCertificateFromResponse toyParsers ⟨"pem", PEMContentType⟩
        ⟨"test-cert", "v1"⟩ = .error (noChainErrorMsg ⟨"test-cert", "v1"⟩)
    ∧ containsSub (noChainErrorMsg ⟨"test-cert", "v1"⟩) "no certificate chain found"
    ∧ containsSub (noChainErrorMsg ⟨"test-cert", "v1"⟩) (CertificateSpec.mk "test-cert" "v1").name
    ∧ containsSub (noChainErrorMsg ⟨"test-cert", "v1"⟩) (CertificateSpec.mk "test-cert" "v1").version :=
  parsePem_noCert_extract_spec toyParsers "pem" ⟨"test-cert", "v1"⟩ (by decide)

/-- C3: parseCertificateInPKCS12 fails with an error (and no
certificates) on a nil input, an empty or blank input, a non-base64
input and a base64 input whose bytes are not a PKCS#12 bundle; an error
result carries no certificate slice by construction. -/
theorem parsePKCS12_failure_spec (b64Decode : String → Option (List Nat))
    (pkcs12Parse : List Nat → Option (List Cert)) (spec : CertificateSpec)
    (s : String) :
    (parseCertificateInPKCS12 b64Decode pkcs12Parse none spec
      = .error (pkcs12ParseErrorMsg spec))
    ∧ (parseCertificateInPKCS12 b64Decode pkcs12Parse (some "") spec
      = .error (pkcs12ParseErrorMsg spec))
    ∧ (s ≠ "" → b64Decode s = none →
        parseCertificateInPKCS12 b64Decode pkcs12Parse (some s) spec
          = .error (pkcs12ParseErrorMsg spec))
    ∧ (∀ bytes, s ≠ "" → b64Decode s = some bytes → pkcs12Parse bytes = none →
        parseCertificateInPKCS12 b64Decode pkcs12Parse (some s) spec
          = .error (pkcs12ParseErrorMsg spec)) := by
  refine ⟨rfl, ?_, ?_, ?_⟩
  · simp [parseCertificateInPKCS12]
  · intro hs hb
    simp only [parseCertificateInPKCS12]
    rw [if_neg hs, hb]
  · intro bytes hs hb hp
    simp only [parseCertificateInPKCS12]
    rw [if_neg hs, hb]
    show (match pkcs12Parse bytes with
      | none => Except.error (pkcs12ParseErrorMsg spec)
      | some certs => Except.ok certs) = Except.error (pkcs12ParseErrorMsg spec)
    rw [hp]

/-- Witness for C3 with the toy decoders: nil, empty, non-base64 and
valid-base64-but-not-PKCS#12 inputs all fail. -/
theorem parsePKCS12_failure_spec_witness :
    (parseCertificateInPKCS12 toyParsers.b64Decode toyParsers.pkcs12Parse none
        ⟨"test-cert", "v1"⟩ = .error (pkcs12ParseErrorMsg ⟨"test-cert", "v1"⟩))
    ∧ (parseCertificateInPKCS12 toyParsers.b64Decode toyParsers.pkcs12Parse (some "")
        ⟨"test-cert", "v1"⟩ = .error (pkcs12ParseErrorMsg ⟨"test-cert", "v1"⟩))
    ∧ (parseCertificateInPKCS12 toyParsers.b64Decode toyParsers.pkcs12Parse (some "zzz")
        ⟨"test-cert", "v1"⟩ = .error (pkcs12ParseErrorMsg ⟨"test-cert", "v1"⟩))
    ∧ (parseCertificateInPKCS12 toyParsers.b64Decode toyParsers.pkcs12Parse (some "b64")
        ⟨"test-cert", "v1"⟩ = .error (pkcs12ParseErrorMsg ⟨"test-cert", "v1"⟩)) :=
  ⟨(parsePKCS12_failure_spec toyParsers.b64Decode toyParsers.pkcs12Parse
      ⟨"test-cert", "v1"⟩ "zzz").1,
   (parsePKCS12_failure_spec toyParsers.b64Decode toyParsers.pkcs12Parse
      ⟨"test-cert", "v1"⟩ "zzz").2.1,
   (parsePKCS12_failure_spec toyParsers.b64Decode toyParsers.pkcs12Parse
      ⟨"test-cert", "v1"⟩ "zzz").2.2.1 (by decide) (by decide),
   (parsePKCS12_failure_spec toyParsers.b64Decode toyParsers.pkcs12Parse
      ⟨"test-cert", "v1"⟩ "b64").2.2.2 [2] (by decide) (by decide) (by decide)⟩

/-- C4: for every response whose content type is neither the PEM nor the
PKCS#12 content type, extractCertificateFromResponse returns no
certificates and an error whose message contains the rejected content
type, the secret's name and both accepted content types. -/
theorem extract_unexpected_contentType_spec (ep : ExternalParsers)
    (resp : GetSecretResponse) (spec : CertificateSpec)
    (h1 : resp.contentType ≠ PKCS12ContentType)
    (h2 : resp.contentType ≠ PEMContentType) :
    extractCertificateFromResponse ep resp spec
      = .error (unexpectedContentTypeMsg resp.contentType spec)
    ∧ containsSub (unexpectedContentTypeMsg resp.contentType spec) resp.contentType
    ∧ containsSub (unexpectedContentTypeMsg resp.contentType spec) spec.name
    ∧ containsSub (unexpectedContentTypeMsg resp.contentType spec) PKCS12ContentType
    ∧ containsSub (unexpectedContentTypeMsg resp.contentType spec) PEMContentType := by
  refine ⟨?_, ?_, ?_, ?_, ?_⟩
  · unfold extractCertificateFromResponse
    rw [if_neg h1, if_neg h2]
  · refine ⟨"unexpected content type \"", "\" for secret \"" ++ (spec.name ++
      ("\", expected \"" ++ (PKCS12ContentType ++ ("\" or \"" ++
        (PEMContentType ++ "\""))))), ?_⟩
    unfold unexpectedContentTypeMsg
    simp only [String.append_assoc]
  · refine ⟨"unexpected content type \"" ++ (resp.contentType ++ "\" for secret \""),
      "\", expected \"" ++ (PKCS12ContentType ++ ("\" or \"" ++
        (PEMContentType ++ "\""))), ?_⟩
    unfold unexpectedContentTypeMsg
    simp only [String.append_assoc]
  · refine ⟨"unexpected content type \"" ++ (resp.contentType ++ ("\" for secret \"" ++
      (spec.name ++ "\", expected \""))), "\" or \"" ++ (PEMContentType ++ "\""), ?_⟩
    unfold unexpectedContentTypeMsg
    simp only [String.append_assoc]
  · refine ⟨"unexpected content type \"" ++ (resp.contentType ++ ("\" for secret \"" ++
      (spec.name ++ ("\", expected \"" ++ (PKCS12ContentType ++ "\" or \""))))), "\"", ?_⟩
    unfold unexpectedContentTypeMsg
    simp only [String.append_assoc]

/-- Witness for C4 at the content type "application/unknown" used by the
repository's own test. -/
theorem extract_unexpected_contentType_spec_witness :
    extractCertificateFromResponse toyParsers ⟨"some value", "application/unknown"⟩
        ⟨"test-cert", "v1"⟩
      = .error (unexpectedContentTypeMsg "application/unknown" ⟨"test-cert", "v1"⟩)
    ∧ containsSub (unexpectedContentTypeMsg "application/unknown" ⟨"test-cert", "v1"⟩)
        (GetSecretResponse.mk "some value" "application/unknown").contentType
    ∧ containsSub (unexpectedContentTypeMsg "application/unknown" ⟨"test-cert", "v1"⟩)
        (CertificateSpec.mk "test-cert" "v1").name
    ∧ containsSub (unexpectedContentTypeMsg "application/unknown" ⟨"test-cert", "v1"⟩)
        PKCS12ContentType
    ∧ containsSub (unexpectedContentTypeMsg "application/unknown" ⟨"test-cert", "v1"⟩)
        PEMContentType :=
  extract_unexpected_contentType_spec toyParsers ⟨"some value", "application/unknown"⟩
    ⟨"test-cert", "v1"⟩ (by decide) (by decide)

/-- C5: GetCertificates on a provider with an empty (or nil) cached
certificate set fails with the no-cached-certificates error and returns
no certificates; on a non-empty cached set it returns exactly the cached
certificates with no error. -/
theorem getCertificates_spec (p : Provider) :
    (p.cachedCerts = [] →
      p.GetCertificates = .error "no cached certificates available")
    ∧ (p.cachedCerts ≠ [] → p.GetCertificates = .ok p.cachedCerts) := by
  constructor
  · intro h
    unfold Provider.GetCertificates
    rw [if_pos (by simp [h] : p.cachedCerts.isEmpty = true)]
  · intro h
    unfold Provider.GetCertificates
    rw [if_neg (by simp [h] : ¬ (p.cachedCerts.isEmpty = true))]

/-- Witness for C5 at an empty and a one-certificate provider. -/
theorem getCertificates_spec_witness :
    ((Provider.mk [] []).GetCertificates
      = .error "no cached certificates available")
    ∧ ((Provider.mk [] [⟨[1]⟩]).GetCertificates
      = .ok (Provider.mk [] [⟨[1]⟩]).cachedCerts) :=
  ⟨(getCertificates_spec (Provider.mk [] [])).1 (by decide),
   (getCertificates_spec (Provider.mk [] [⟨[1]⟩])).2 (by decide)⟩

end Ratify
